import Mathlib

/-!
Verification development for the MagPro restaurant client (`src/main.py`).

The definitions below are a shallow embedding of the core logic of the
client: Python float values used by the cart/validator code are modelled by
`PyFloat` (exact rationals plus nan/±inf; the claims under study never
depend on IEEE rounding), JSON-ish stored values by `Value`, and each
relevant method of `DataValidator` / `RestaurantApp` becomes a Lean
function of the same name over explicit state.
-/

namespace MagPro

/-- Python float values as they flow through the client: a finite value
(modelled exactly as a rational; the claims never depend on rounding),
`nan`, `inf` or `-inf`. -/
inductive PyFloat where
  | finite (q : ℚ)
  | nan
  | inf
  | ninf
deriving DecidableEq, Repr

/-- IEEE-style `<=` as Python evaluates it on floats: any comparison with
`nan` is `False`. Used by `validate_quantity`'s `qty <= 0` guard. -/
def PyFloat.leb : PyFloat → PyFloat → Bool
  | .nan, _ => false
  | _, .nan => false
  | .ninf, _ => true
  | _, .ninf => false
  | _, .inf => true
  | .inf, _ => false
  | .finite a, .finite b => decide (a ≤ b)

/-- Python float addition (exact on finite values). -/
def PyFloat.add : PyFloat → PyFloat → PyFloat
  | .nan, _ => .nan
  | _, .nan => .nan
  | .inf, .ninf => .nan
  | .ninf, .inf => .nan
  | .inf, _ => .inf
  | _, .inf => .inf
  | .ninf, _ => .ninf
  | _, .ninf => .ninf
  | .finite a, .finite b => .finite (a + b)

/-- Python float multiplication (exact on finite values). -/
def PyFloat.mul : PyFloat → PyFloat → PyFloat
  | .nan, _ => .nan
  | _, .nan => .nan
  | .inf, .inf => .inf
  | .inf, .ninf => .ninf
  | .ninf, .inf => .ninf
  | .ninf, .ninf => .inf
  | .inf, .finite b => if 0 < b then .inf else if b < 0 then .ninf else .nan
  | .finite a, .inf => if 0 < a then .inf else if a < 0 then .ninf else .nan
  | .ninf, .finite b => if 0 < b then .ninf else if b < 0 then .inf else .nan
  | .finite a, .ninf => if 0 < a then .ninf else if a < 0 then .inf else .nan
  | .finite a, .finite b => .finite (a * b)

/-- Whether a Python float is finite (not nan, not ±inf). -/
def PyFloat.isFinite : PyFloat → Bool
  | .finite _ => true
  | _ => false

/-- Strip leading and trailing whitespace from a character list (the
`str.strip()` / surrounding-whitespace handling of `float`). -/
def trimChars (cs : List Char) : List Char :=
  ((cs.dropWhile Char.isWhitespace).reverse.dropWhile Char.isWhitespace).reverse

/-- ASCII lower-casing of one character. -/
def lowerChar (c : Char) : Char :=
  if c.isUpper then Char.ofNat (c.toNat + 32) else c

/-- Value of a decimal digit character. -/
def decDigit? (c : Char) : Option ℕ :=
  if c.isDigit then some (c.toNat - 48) else Option.none

/-- Read a (possibly empty) run of decimal digits as a natural number;
fails on any non-digit character. -/
def digitsToNat? (cs : List Char) : Option ℕ :=
  cs.foldl
    (fun acc c =>
      match acc, decDigit? c with
      | some a, some d => some (a * 10 + d)
      | _, _ => Option.none)
    (some 0)

/-- Split at the first occurrence of a separator character, reporting
whether one was found. -/
def splitFirst (sep : Char) : List Char → List Char × Option (List Char)
  | [] => ([], Option.none)
  | c :: rest =>
      if c == sep then ([], some rest)
      else
        let r := splitFirst sep rest
        (c :: r.1, r.2)

/-- Unsigned decimal literal `digits [. digits]` with at least one digit,
as accepted by Python's `float`. -/
def parseDecimal? (cs : List Char) : Option ℚ :=
  let p := splitFirst (Char.ofNat 46) cs
  match p.2 with
  | Option.none =>
      if p.1.isEmpty then Option.none
      else (digitsToNat? p.1).map (fun n => (n : ℚ))
  | some fracPart =>
      if fracPart.contains (Char.ofNat 46) then Option.none
      else if p.1.isEmpty && fracPart.isEmpty then Option.none
      else
        match digitsToNat? p.1, digitsToNat? fracPart with
        | some i, some f =>
            some ((i : ℚ) + (f : ℚ) / (10 : ℚ) ^ fracPart.length)
        | _, _ => Option.none

/-- Fragment of Python's builtin `float(str)` used by this client:
surrounding whitespace is stripped, an optional sign is read, then either
one of the keywords `nan` / `inf` / `infinity` (case-insensitive) or a
plain decimal literal; anything else raises `ValueError` (here: `none`).
Exponent and underscore forms are outside the fragment the claims use. -/
def pyFloatOfChars (cs0 : List Char) : Option PyFloat :=
  let cs := trimChars cs0
  let neg := cs.head? == some (Char.ofNat 45)
  let body :=
    match cs with
    | c :: rest => if c == Char.ofNat 45 || c == Char.ofNat 43 then rest else cs
    | [] => []
  let low := body.map lowerChar
  if low = [ 'n', 'a', 'n' ] then some PyFloat.nan
  else if low = [ 'i', 'n', 'f' ] ∨
      low = [ 'i', 'n', 'f', 'i', 'n', 'i', 't', 'y' ] then
    some (if neg then PyFloat.ninf else PyFloat.inf)
  else
    match parseDecimal? body with
    | some q => some (PyFloat.finite (if neg then -q else q))
    | Option.none => Option.none

/-- Python's `float` on a string. -/
def pyFloatOfString? (s : String) : Option PyFloat :=
  pyFloatOfChars s.toList

/-- `DataValidator.validate_quantity`: `float(qty_text)`, then raise if the
parsed value compares `<= 0`; both the parse failure and the non-positive
branch surface the same generic French message (the specific message raised
inside the `try` block is swallowed by the `except` clause and replaced). -/
def validate_quantity (qty_text : String) : Except String PyFloat :=
  match pyFloatOfString? qty_text with
  | Option.none => .error "Veuillez saisir une quantité valide."
  | some qty =>
      if qty.leb (PyFloat.finite 0) then .error "Veuillez saisir une quantité valide."
      else .ok qty

/-- `DataValidator.sanitize_note`: empty input becomes `""`; otherwise
remove every double and single quote character, strip surrounding
whitespace, truncate to 200 characters. -/
def sanitize_note (note_text : String) : String :=
  if note_text.toList.isEmpty then ""
  else
    ⟨(trimChars (note_text.toList.filter
        (fun c => !(c == Char.ofNat 34 || c == Char.ofNat 39)))).take 200⟩

/-- A stored JSON-ish value as the cart/store code sees it: a Python float
(possibly nan/inf once inside the process), a string, or null/missing. -/
inductive Value where
  | num (x : PyFloat)
  | str (s : String)
  | null
deriving DecidableEq, Repr

/-- Python's builtin `float` applied to a stored value: numbers pass
through, strings are parsed (ValueError on failure), null/missing raises
TypeError. An `error` models an uncaught exception at the call site. -/
def pyFloat? : Value → Except Unit PyFloat
  | .num x => .ok x
  | .str s =>
      match pyFloatOfString? s with
      | some x => .ok x
      | Option.none => .error ()
  | .null => .error ()

/-- The finite rational stored in a value, or `0` for anything else; used
only to state specifications (`Σ price_i * qty_i`). -/
def Value.q0 : Value → ℚ
  | .num (.finite q) => q
  | _ => 0

/-- A cart line as built by `confirm_add` / loaded from the server. -/
structure CartItem where
  id : ℕ
  name : String
  price : Value
  qty : Value
  note : String
deriving DecidableEq, Repr

/-- A product dict as used by `confirm_add` (`price` may be missing or
malformed: `Value.null` / `Value.str`). -/
structure Product where
  id : ℕ
  name : String
  price : Value
deriving DecidableEq, Repr

/-- The `try: float(product[price]) except: 0.0` coercion in
`confirm_add`. -/
def coerce_price (v : Value) : PyFloat :=
  match pyFloat? v with
  | .ok x => x
  | .error _ => PyFloat.finite 0

/-- Errors `confirm_add` can surface: an invalid quantity (notified, cart
left unchanged) or an uncaught TypeError from `existing[qty] += qty` when
the existing line stores a non-numeric quantity. -/
inductive AddErr where
  | badQty (msg : String)
  | typeErr
deriving DecidableEq, Repr

/-- Python `existing_qty + qty` where `existing_qty` is a stored value:
number + float works, anything else raises TypeError. -/
def pyAddNum : Value → PyFloat → Except AddErr PyFloat
  | .num a, b => .ok (a.add b)
  | _, _ => .error .typeErr

/-- The `next((i for i in cart if i[id] == pid and i.get(note) == note))`
merge of `confirm_add`: update the first line with identical
`(id, note)` in place, or report that none exists. -/
def mergeFirst : List CartItem → ℕ → String → PyFloat →
    Option (Except AddErr (List CartItem))
  | [], _, _, _ => Option.none
  | i :: rest, pid, note, qty =>
      if i.id == pid && i.note == note then
        some
          (match pyAddNum i.qty qty with
            | .ok q2 => .ok (⟨i.id, i.name, i.price, Value.num q2, i.note⟩ :: rest)
            | .error e => .error e)
      else (mergeFirst rest pid note qty).map (fun r => r.map (fun c => i :: c))

/-- `RestaurantApp.confirm_add`: validate the quantity text, sanitize the
note, then either increment the first cart line with identical
`(product.id, note)` or append a fresh line whose price is defensively
coerced from the product. -/
def confirm_add (cart : List CartItem) (product : Product)
    (qty_text note_text : String) : Except AddErr (List CartItem) :=
  match validate_quantity qty_text with
  | .error e => .error (.badQty e)
  | .ok qty =>
      let note := sanitize_note note_text
      match mergeFirst cart product.id note qty with
      | some r => r
      | Option.none =>
          .ok (cart ++
            [⟨product.id, product.name, Value.num (coerce_price product.price),
              Value.num qty, note⟩])

/-- Run a sequence of `confirm_add` calls for one product, threading the
cart; each list element is `(qty_text, note_text)`. -/
def runAdds (p : Product) : List CartItem → List (String × String) →
    Except AddErr (List CartItem)
  | cart, [] => .ok cart
  | cart, (qt, nt) :: rest =>
      match confirm_add cart p qt nt with
      | .ok cart2 => runAdds p cart2 rest
      | .error e => .error e

/-- Left-fold sum of Python floats starting from `0.0`, mirroring the
accumulation performed by repeated `+=` and by Python's `sum`. -/
def pyFloatSum (l : List PyFloat) : PyFloat :=
  l.foldl PyFloat.add (PyFloat.finite 0)

/-- The running sum `acc + Σ float(i.price) * float(i.qty)` over the cart,
evaluated left to right exactly as the generator inside `sum(...)` is:
the first malformed stored value raises (no defensive coercion here). -/
def pySumProducts : PyFloat → List CartItem → Except Unit PyFloat
  | acc, [] => .ok acc
  | acc, i :: rest =>
      match pyFloat? i.price with
      | .error e => .error e
      | .ok p =>
          match pyFloat? i.qty with
          | .error e => .error e
          | .ok q => pySumProducts (acc.add (p.mul q)) rest

/-- The running sum `acc + Σ float(i.qty)` over the cart. -/
def pySumQtys : PyFloat → List CartItem → Except Unit PyFloat
  | acc, [] => .ok acc
  | acc, i :: rest =>
      match pyFloat? i.qty with
      | .error e => .error e
      | .ok q => pySumQtys (acc.add q) rest

/-- `RestaurantApp.update_cart_totals_live`:
`total = sum(float(i[price]) * float(i[qty]) for i in self.cart)`. -/
def update_cart_totals_live (cart : List CartItem) : Except Unit PyFloat :=
  pySumProducts (PyFloat.finite 0) cart

/-- `RestaurantApp.update_cart_btn`: the amount `total` and the quantity
`count` shown on the cart button. (The `if i` truthiness filter of the
source comprehension is vacuous here: every `CartItem` is a non-empty
dict.) -/
def update_cart_btn (cart : List CartItem) : Except Unit (PyFloat × PyFloat) :=
  match update_cart_totals_live cart with
  | .error e => .error e
  | .ok total =>
      match pySumQtys (PyFloat.finite 0) cart with
      | .error e => .error e
      | .ok count => .ok (total, count)

/-- Notice levels of `RestaurantApp.notify`. -/
inductive NoticeLevel where
  | info
  | success
  | warning
  | error
deriving DecidableEq, Repr

/-- A pending order document as persisted by `send_order` /
`process_offline_queue` (`order_data`). -/
structure PendingOrder where
  table_id : ℕ
  seat_number : ℕ
  items : List CartItem
  user_name : String
  timestamp : String
deriving DecidableEq, Repr

/-- `JsonStore.put`: overwrite the entry with the given key in place when
one exists, otherwise append it (the store is a Python dict, so insertion
order is preserved). -/
def storePut (s : List (String × PendingOrder)) (k : String) (v : PendingOrder) :
    List (String × PendingOrder) :=
  if s.any (fun e => e.1 == k) then
    s.map (fun e => if e.1 == k then (k, v) else e)
  else s ++ [(k, v)]

/-- Observable outcome of one `send_order` attempt. -/
structure SendOutcome where
  store : List (String × PendingOrder)
  cart : List CartItem
  noticeLevel : NoticeLevel
deriving DecidableEq, Repr

/-- `RestaurantApp.send_order` (outcome once the transport resolved):
empty cart is refused with a warning; on transport success `on_sent` runs
(success notice, cart cleared, offline store untouched); on transport
failure/timeout `save_offline` runs: the order is `put` under the key
`order_{int(now.timestamp())}_{seat}`, a warning-level "saved on device"
notice is shown, and the cart is cleared. `nowSec` is the whole-second
timestamp the key is derived from. -/
def send_order (store : List (String × PendingOrder)) (cart : List CartItem)
    (table_id seat : ℕ) (user ts : String) (nowSec : ℕ) (transportOk : Bool) :
    SendOutcome :=
  if cart.isEmpty then ⟨store, cart, NoticeLevel.warning⟩
  else
    let data : PendingOrder := ⟨table_id, seat, cart, user, ts⟩
    if transportOk then ⟨store, [], NoticeLevel.success⟩
    else
      let key := "order_" ++ toString nowSec ++ "_" ++ toString seat
      ⟨storePut store key data, [], NoticeLevel.warning⟩

/-- A JSON response body with optional `status` and `message` fields
(`res.get(...)` semantics). -/
structure ServerRes where
  status : Option String
  message : Option String
deriving DecidableEq, Repr

/-- `RestaurantApp.on_sent`, the success continuation of
`/api/submit_order`: it notifies success and clears the cart without ever
inspecting the response body. Returns (notice level, notice text,
resulting cart). -/
def on_sent (_result : ServerRes) : NoticeLevel × String × List CartItem :=
  (NoticeLevel.success, "Commande transmise en cuisine avec succès.", [])

/-- `RestaurantApp.process_offline_queue`: one drain pass over the offline
store (insertion-ordered list of key/order pairs). `send o = true` means
the resubmission POST for `o` reached the server and succeeded. Returns
the keys attempted in order, and the store contents after the pass: the
oldest entry is attempted; on success it is deleted and the pass recurses
into the next oldest; on failure the pass stops, leaving the store as it
is. -/
def process_offline_queue (send : PendingOrder → Bool) :
    List (String × PendingOrder) → List String × List (String × PendingOrder)
  | [] => ([], [])
  | (k, o) :: rest =>
      if send o then
        let r := process_offline_queue send rest
        (k :: r.1, r.2)
      else ([k], (k, o) :: rest)

/-- A table as the transfer flow reads it. -/
structure Table where
  id : ℕ
  name : String
  occupied_seats : List ℕ
deriving DecidableEq, Repr

/-- The transfer requests `execute_move` can issue, with their JSON
bodies. -/
inductive HttpReq where
  | moveTable (source_id dest_id : ℕ)
  | moveSeat (table_id source_seat dest_table_id dest_seat : ℕ)
deriving DecidableEq, Repr

/-- Transfer-machine state: `idle`, or `moving` holding
`move_source_data = {table, seat}` while `move_mode` is set. -/
inductive MoveState where
  | idle
  | moving (source : Table) (seat : ℕ)
deriving DecidableEq, Repr

/-- What `process_destination_selection` decided. -/
inductive DestOutcome where
  | noop
  | abortSame
  | abortOccupied
  | modeDialog (source : Table) (source_seat : ℕ) (dest : Table)
deriving DecidableEq, Repr

/-- Full observable result of `process_destination_selection`. -/
structure DestResult where
  outcome : DestOutcome
  state : MoveState
  notices : List (NoticeLevel × String)
  requests : List HttpReq
deriving DecidableEq, Repr

/-- `RestaurantApp.process_destination_selection`: ignore the tap when not
in move mode; abort to idle (error notice, then the `cancel_move`
cancellation notice) when the destination is the source table or has any
occupied seats; otherwise open the destination-mode dialog, staying in
move mode. No HTTP request is issued on any branch. -/
def process_destination_selection : MoveState → Table → DestResult
  | MoveState.idle, _ => ⟨DestOutcome.noop, MoveState.idle, [], []⟩
  | MoveState.moving src seat, dest =>
      if src.id == dest.id then
        ⟨DestOutcome.abortSame, MoveState.idle,
          [(NoticeLevel.error, "Erreur: Destination identique à la source"),
           (NoticeLevel.info, "Transfert annulé")], []⟩
      else if !dest.occupied_seats.isEmpty then
        ⟨DestOutcome.abortOccupied, MoveState.idle,
          [(NoticeLevel.error, "Action refusée : La table de destination est occupée."),
           (NoticeLevel.info, "Transfert annulé")], []⟩
      else
        ⟨DestOutcome.modeDialog src seat dest, MoveState.moving src seat, [], []⟩

/-- `RestaurantApp.execute_move`: the single request a confirmed transfer
issues — the whole-table endpoint with `{source_id, dest_id}` when both
the source seat and the chosen target seat are `0`, else the seat
endpoint with `{table_id, source_seat, dest_table_id, dest_seat}`. -/
def execute_move (source : Table) (source_seat : ℕ) (dest : Table)
    (target_seat : ℕ) : List HttpReq :=
  if source_seat == 0 && target_seat == 0 then
    [HttpReq.moveTable source.id dest.id]
  else
    [HttpReq.moveSeat source.id source_seat dest.id target_seat]

/-- Observable result of `on_move_success`: the notice shown, the
transfer-machine state afterwards, and the `manual` flags of the
`fetch_tables` calls it triggers. -/
structure MoveSuccessOutcome where
  notice : NoticeLevel × String
  state : MoveState
  fetchCalls : List Bool
deriving DecidableEq, Repr

/-- `RestaurantApp.on_move_success`, the 200-response continuation of a
transfer request: `status == success` notifies success, anything else
notifies the server message (or a generic one) as an error; both branches
then run `cancel_move(show_notification=False)` (back to idle, no extra
notice) and `fetch_tables()` — whose `manual` parameter defaults to
`False`. -/
def on_move_success (res : ServerRes) : MoveSuccessOutcome :=
  if res.status == some "success" then
    ⟨(NoticeLevel.success, "Transfert effectué avec succès ✅"),
      MoveState.idle, [false]⟩
  else
    ⟨(NoticeLevel.error, res.message.getD "Erreur lors du transfert"),
      MoveState.idle, [false]⟩

/-- Bool-valued substring test used to model Python's `in` on strings. -/
def containsSub (s pat : String) : Bool :=
  decide (pat.toList <:+: s.toList)

/-- `RestaurantApp.standard_error_handler`'s message classification: the
lower-cased transport error string is pattern-matched into a user-facing
reason, falling back to the custom message (or a generic one). -/
def standard_error_msg (err : String) (custom_msg : Option String) : String :=
  let e : String := ⟨err.toList.map lowerChar⟩
  let msg := custom_msg.getD "Erreur de connexion."
  if containsSub e "connecttimeout" || containsSub e "etimedout" then
    "Le serveur ne répond pas (Délai dépassé)."
  else if containsSub e "connection refused" || containsSub e "econnrefused" then
    "Connexion refusée. Vérifiez l\x27adresse IP."
  else if containsSub e "no route to host" || containsSub e "ehostunreach" then
    "Serveur introuvable. Vérifiez votre réseau Wi-Fi."
  else if containsSub e "socket" then
    "Erreur réseau (Socket). Vérifiez la connexion."
  else msg

/-- What triggered a refresh, and the `manual=` argument each call site of
`fetch_tables` passes: the toolbar button / explicit user action passes
`manual=True`; `silent_refresh` (periodic timer) and the websocket push
handler call `fetch_tables()` with the default `manual=False`. -/
inductive Trigger where
  | manual
  | periodic
  | push
deriving DecidableEq, Repr

/-- The `manual` flag a trigger's call site passes to `fetch_tables`. -/
def Trigger.manualFlag : Trigger → Bool
  | .manual => true
  | _ => false

/-- Observable outcome of `fetch_tables`'s error continuation. -/
structure FetchFailOutcome where
  request_pending : Bool
  is_offline_mode : Bool
  snapshotUpdate : Option (List Table)
  notice : Option (NoticeLevel × String)
deriving DecidableEq, Repr

/-- The `on_error` continuation inside `RestaurantApp.fetch_tables`
(transport failure): clear the single-flight flag, enter offline mode;
when the cache holds a `tables` entry, feed it to `update_tables` and show
the "loaded from cache" warning only for manual triggers; with no cache,
run `standard_error_handler` (an error notice) only for manual triggers —
periodic/push failures are silent. -/
def fetch_tables_on_error (cache_tables : Option (List Table)) (manual : Bool)
    (err : String) : FetchFailOutcome :=
  match cache_tables with
  | some ts =>
      ⟨false, true, some ts,
        if manual then
          some (NoticeLevel.warning, "Mode Hors Ligne : Données locales chargées.")
        else Option.none⟩
  | Option.none =>
      ⟨false, true, Option.none,
        if manual then
          some (NoticeLevel.error,
            standard_error_msg err (some "Impossible d\x27actualiser les tables."))
        else Option.none⟩

/-- The sync-engine state the single-flight guard acts on: whether a
`/api/tables` request is in flight, and how many such requests have been
issued. The source keeps no other refresh bookkeeping — in particular it
has no queued-trigger field. -/
structure SyncState where
  request_pending : Bool
  fetches : ℕ
deriving DecidableEq, Repr

/-- An event on the foreground loop: a refresh trigger (manual button,
periodic timer tick, or the scheduled push handler) reaching
`fetch_tables`, or the in-flight request completing (both the success and
the error continuation clear `request_pending`). -/
inductive SyncEvent where
  | trigger (t : Trigger)
  | complete
deriving DecidableEq, Repr

/-- The entry guard of `RestaurantApp.fetch_tables`: a call while
`request_pending` is set returns immediately (the trigger is dropped);
otherwise the flag is set and one HTTP request is issued. -/
def fetch_tables_start (s : SyncState) : SyncState :=
  if s.request_pending then s else ⟨true, s.fetches + 1⟩

/-- Processing one foreground event. -/
def syncStep : SyncState → SyncEvent → SyncState
  | s, SyncEvent.trigger _ => fetch_tables_start s
  | s, SyncEvent.complete => ⟨false, s.fetches⟩

/-- Processing a sequence of foreground events. -/
def syncRun : SyncState → List SyncEvent → SyncState :=
  List.foldl syncStep

/-- `RestaurantApp.on_websocket_message`: a `tables_update` push schedules
exactly one `fetch_tables()` call (a push trigger); every other message
type is ignored. -/
def on_websocket_message (msgType : Option String) : List SyncEvent :=
  if msgType == some "tables_update" then [SyncEvent.trigger Trigger.push]
  else []

/-! ### Concrete data used by scenario conjuncts and counterexamples -/

/-- A minimal pending order for queue scenarios. -/
def demoOrder (n : ℕ) : PendingOrder :=
  ⟨n, 0, [], "u", "t" ++ toString n⟩

/-- Three queued orders, oldest first. -/
def demoQueue : List (String × PendingOrder) :=
  [("k1", demoOrder 1), ("k2", demoOrder 2), ("k3", demoOrder 3)]

/-- Resubmission oracle for the drain scenario: only the first order's
POST succeeds. -/
def demoSend (o : PendingOrder) : Bool :=
  o.table_id == 1

/-! ### Claims -/

/-- C1: a drain pass attempts entries strictly oldest-first, one at a
time; each success deletes exactly that entry and moves on, the first
failure stops the pass leaving the store untouched from that entry on, so
the store afterwards is the original list minus its acknowledged prefix —
an entry is removed iff the server acknowledged it. The concrete conjunct
is the three-order scenario where the second resubmission fails: the
first entry is deleted, the second and third remain in original order. -/
theorem C1_drain_pass :
    (∀ (send : PendingOrder → Bool) (q : List (String × PendingOrder)),
      (process_offline_queue send q).2 = q.dropWhile (fun e => send e.2)
      ∧ q.takeWhile (fun e => send e.2) ++ (process_offline_queue send q).2 = q
      ∧ (∀ e ∈ q.takeWhile (fun e => send e.2), send e.2 = true)
      ∧ (process_offline_queue send q).1 =
          (q.takeWhile (fun e => send e.2)).map Prod.fst
            ++ ((q.dropWhile (fun e => send e.2)).head?.map Prod.fst).toList)
    ∧ process_offline_queue demoSend demoQueue
        = (["k1", "k2"], [("k2", demoOrder 2), ("k3", demoOrder 3)]) := by
  constructor
  · intro send q
    induction q with
    | nil => simp [process_offline_queue]
    | cons e rest ih =>
      obtain ⟨k, o⟩ := e
      by_cases h : send o
      · simpa [process_offline_queue, h] using ih
      · simp [process_offline_queue, h]
  · rfl

/-- C1 witness: the general pass shape and the acknowledged-prefix
property at the concrete three-order queue. -/
theorem C1_drain_pass_witness :
    (process_offline_queue demoSend demoQueue).2 =
      demoQueue.dropWhile (fun e => demoSend e.2)
    ∧ demoSend (demoOrder 1) = true := by
  refine ⟨(C1_drain_pass.1 demoSend demoQueue).1, ?_⟩
  exact (C1_drain_pass.1 demoSend demoQueue).2.2.1 ("k1", demoOrder 1) (by decide)

/-- C10: quantity validation does not reject every non-positive input:
`float("nan")` parses to nan and `float("inf")` to infinity, the `qty <= 0`
guard evaluates to `False` on both (IEEE comparison), so
`validate_quantity` returns the non-finite value instead of raising, and a
`confirm_add` with quantity text `"nan"` succeeds and stores a non-finite
quantity in the cart. -/
theorem C10_nan_quantity_accepted :
    validate_quantity "nan" = .ok PyFloat.nan
    ∧ validate_quantity "inf" = .ok PyFloat.inf
    ∧ PyFloat.leb PyFloat.nan (PyFloat.finite 0) = false
    ∧ confirm_add [] ⟨7, "Pizza", Value.num (PyFloat.finite 100)⟩ "nan" ""
        = .ok [⟨7, "Pizza", Value.num (PyFloat.finite 100), Value.num PyFloat.nan, ""⟩]
    ∧ PyFloat.isFinite PyFloat.nan = false := by
  exact ⟨rfl, rfl, rfl, rfl, rfl⟩

/-- Two cached tables for the refresh-failure scenario. -/
def demoTables : List Table :=
  [⟨1, "T1", [0]⟩, ⟨2, "T2", []⟩]

/-- C6: during an active transfer, selecting the source table itself or
any destination with occupied seats aborts to idle with a user-visible
error notice, and no branch of destination selection ever issues an HTTP
request; only an empty, distinct destination proceeds to the
destination-mode choice. -/
theorem C6_destination_guards :
    ∀ (src : Table) (seat : ℕ) (dest : Table),
      (process_destination_selection (MoveState.moving src seat) dest).requests = []
      ∧ (dest.id = src.id →
          process_destination_selection (MoveState.moving src seat) dest =
            ⟨DestOutcome.abortSame, MoveState.idle,
              [(NoticeLevel.error, "Erreur: Destination identique à la source"),
               (NoticeLevel.info, "Transfert annulé")], []⟩)
      ∧ (dest.id ≠ src.id → dest.occupied_seats ≠ [] →
          process_destination_selection (MoveState.moving src seat) dest =
            ⟨DestOutcome.abortOccupied, MoveState.idle,
              [(NoticeLevel.error, "Action refusée : La table de destination est occupée."),
               (NoticeLevel.info, "Transfert annulé")], []⟩)
      ∧ (dest.id ≠ src.id → dest.occupied_seats = [] →
          process_destination_selection (MoveState.moving src seat) dest =
            ⟨DestOutcome.modeDialog src seat dest, MoveState.moving src seat, [], []⟩)
      ∧ (∀ s2 t2 d2,
          (process_destination_selection (MoveState.moving src seat) dest).outcome =
            DestOutcome.modeDialog s2 t2 d2 →
          dest.id ≠ src.id ∧ dest.occupied_seats = []) := by
  intro src seat dest
  by_cases hid : src.id = dest.id
  · simp [process_destination_selection, hid]
  · by_cases hocc : dest.occupied_seats = []
    · simp [process_destination_selection, hid, hocc, Ne.symm hid]
    · simp [process_destination_selection, hid, hocc, Ne.symm hid]

/-- C6 witness: the three guard branches at concrete tables. -/
theorem C6_destination_guards_witness :
    (process_destination_selection (MoveState.moving ⟨1, "T1", [0]⟩ 0) ⟨1, "T1b", [3]⟩).outcome
      = DestOutcome.abortSame
    ∧ (process_destination_selection (MoveState.moving ⟨1, "T1", [0]⟩ 0) ⟨2, "T2", [3]⟩).outcome
      = DestOutcome.abortOccupied
    ∧ (process_destination_selection (MoveState.moving ⟨1, "T1", [0]⟩ 0) ⟨2, "T2", []⟩).outcome
      = DestOutcome.modeDialog ⟨1, "T1", [0]⟩ 0 ⟨2, "T2", []⟩ := by
  refine ⟨?_, ?_, ?_⟩
  · rw [(C6_destination_guards ⟨1, "T1", [0]⟩ 0 ⟨1, "T1b", [3]⟩).2.1 rfl]
  · rw [(C6_destination_guards ⟨1, "T1", [0]⟩ 0 ⟨2, "T2", [3]⟩).2.2.1
      (by decide) (by decide)]
  · rw [(C6_destination_guards ⟨1, "T1", [0]⟩ 0 ⟨2, "T2", []⟩).2.2.2.1
      (by decide) rfl]

/-- C7: when a refresh's transport fails, offline mode is always entered;
with a cached `tables` snapshot the snapshot is replaced by the cached
tables and the "loaded from cache" warning is shown only for a manual
trigger; with no cache a connectivity error notice is shown only for a
manual trigger — periodic and push failures are silent. The concrete
conjuncts are the two-table scenario from the spec. -/
theorem C7_refresh_failure_fallback :
    (∀ (cache : Option (List Table)) (t : Trigger) (err : String),
      (fetch_tables_on_error cache t.manualFlag err).is_offline_mode = true
      ∧ (∀ ts, cache = some ts →
          (fetch_tables_on_error cache t.manualFlag err).snapshotUpdate = some ts
          ∧ (t = Trigger.manual →
              (fetch_tables_on_error cache t.manualFlag err).notice =
                some (NoticeLevel.warning, "Mode Hors Ligne : Données locales chargées."))
          ∧ (t ≠ Trigger.manual →
              (fetch_tables_on_error cache t.manualFlag err).notice = Option.none))
      ∧ (cache = Option.none →
          (fetch_tables_on_error cache t.manualFlag err).snapshotUpdate = Option.none
          ∧ (t = Trigger.manual →
              (fetch_tables_on_error cache t.manualFlag err).notice =
                some (NoticeLevel.error,
                  standard_error_msg err (some "Impossible d\x27actualiser les tables.")))
          ∧ (t ≠ Trigger.manual →
              (fetch_tables_on_error cache t.manualFlag err).notice = Option.none)))
    ∧ (fetch_tables_on_error (some demoTables) (Trigger.periodic).manualFlag "err").snapshotUpdate
        = some demoTables
    ∧ (fetch_tables_on_error (some demoTables) (Trigger.periodic).manualFlag "err").is_offline_mode
        = true
    ∧ (fetch_tables_on_error (some demoTables) (Trigger.periodic).manualFlag "err").notice
        = Option.none
    ∧ (fetch_tables_on_error (some demoTables) (Trigger.manual).manualFlag "err").notice
        = some (NoticeLevel.warning, "Mode Hors Ligne : Données locales chargées.") := by
  refine ⟨?_, rfl, rfl, rfl, rfl⟩
  intro cache t err
  cases cache with
  | none => cases t <;> simp [fetch_tables_on_error, Trigger.manualFlag]
  | some ts => cases t <;> simp [fetch_tables_on_error, Trigger.manualFlag]

/-- C7 witness: cached and uncached failure at concrete inputs. -/
theorem C7_refresh_failure_fallback_witness :
    (fetch_tables_on_error (some demoTables) (Trigger.push).manualFlag "x").snapshotUpdate
      = some demoTables
    ∧ (fetch_tables_on_error (some demoTables) (Trigger.push).manualFlag "x").notice
      = Option.none
    ∧ (fetch_tables_on_error Option.none (Trigger.manual).manualFlag "x").notice
      = some (NoticeLevel.error,
          standard_error_msg "x" (some "Impossible d\x27actualiser les tables."))
    ∧ (fetch_tables_on_error Option.none (Trigger.periodic).manualFlag "x").notice
      = Option.none := by
  have h1 := (C7_refresh_failure_fallback.1 (some demoTables) Trigger.push "x").2.1
    demoTables rfl
  have h2 := (C7_refresh_failure_fallback.1 Option.none Trigger.manual "x").2.2 rfl
  have h3 := (C7_refresh_failure_fallback.1 Option.none Trigger.periodic "x").2.2 rfl
  exact ⟨h1.1, h1.2.2 (by decide), h2.2.1 rfl, h3.2.2 (by decide)⟩

/-- C9 counterexample: a push-triggered refresh arriving while a refresh
is in flight is dropped by the `request_pending` guard, not queued — the
state after the in-flight request completes is identical to the trace
without the push trigger, no further `/api/tables` request was issued
(`fetches` stays 1), and the code keeps no pending-trigger field at all;
so the claimed "at least one more refresh after the in-flight one
completes" does not happen. -/
theorem C9_push_during_flight_counterexample :
    syncRun ⟨true, 1⟩ [SyncEvent.trigger Trigger.push, SyncEvent.complete]
      = syncRun ⟨true, 1⟩ [SyncEvent.complete]
    ∧ (syncRun ⟨true, 1⟩ [SyncEvent.trigger Trigger.push, SyncEvent.complete]).fetches = 1
    ∧ on_websocket_message (some "tables_update") = [SyncEvent.trigger Trigger.push] :=
  ⟨rfl, rfl, rfl⟩

/-- C9 (amended): every refresh trigger that arrives while a refresh is
in flight is coalesced — dropped with no state change at all, including
push-triggered (`tables_update`) refreshes; no pending trigger is queued.
A trigger while idle issues exactly one request; a `tables_update` push
schedules exactly one `fetch_tables` call and other push messages none. -/
theorem C9_triggers_coalesced_amended :
    (∀ (s : SyncState) (t : Trigger), s.request_pending = true →
      syncStep s (SyncEvent.trigger t) = s)
    ∧ (∀ (s : SyncState) (t : Trigger), s.request_pending = false →
      syncStep s (SyncEvent.trigger t) = ⟨true, s.fetches + 1⟩)
    ∧ on_websocket_message (some "tables_update") = [SyncEvent.trigger Trigger.push]
    ∧ (∀ m, m ≠ some "tables_update" → on_websocket_message m = []) := by
  refine ⟨?_, ?_, rfl, ?_⟩
  · intro s t h
    simp [syncStep, fetch_tables_start, h]
  · intro s t h
    simp [syncStep, fetch_tables_start, h]
  · intro m h
    simp [on_websocket_message, h]

/-- C9 witness: the guard at concrete states and messages. -/
theorem C9_triggers_coalesced_witness :
    syncStep ⟨true, 5⟩ (SyncEvent.trigger Trigger.push) = ⟨true, 5⟩
    ∧ syncStep ⟨false, 5⟩ (SyncEvent.trigger Trigger.periodic) = ⟨true, 6⟩
    ∧ on_websocket_message (some "other") = [] := by
  refine ⟨?_, ?_, ?_⟩
  · exact C9_triggers_coalesced_amended.1 ⟨true, 5⟩ Trigger.push rfl
  · exact C9_triggers_coalesced_amended.2.1 ⟨false, 5⟩ Trigger.periodic rfl
  · exact C9_triggers_coalesced_amended.2.2.2 (some "other") (by decide)

/-- C5 counterexample: on a `status=success` transfer response the code
calls `fetch_tables()` with the default `manual=False`, so the forced
refresh is not a manual one as the claim states. -/
theorem C5_manual_refresh_counterexample :
    (on_move_success ⟨some "success", Option.none⟩).fetchCalls = [false]
    ∧ (on_move_success ⟨some "success", Option.none⟩).fetchCalls ≠ [true] :=
  ⟨rfl, by decide⟩

/-- C5 (amended): every confirmed transfer issues exactly one HTTP
request — the whole-table endpoint with `{source_id, dest_id}` when
`source_seat == 0 && chosen_target_seat == 0`, else the seat endpoint
with `{table_id, source_seat, dest_table_id, dest_seat}`; on a
`status=success` response a success notice is shown, the machine returns
to idle, and one non-manual (`manual=False`) `fetch_tables` refresh is
forced. -/
theorem C5_transfer_execution_amended :
    (∀ (source : Table) (source_seat : ℕ) (dest : Table) (target_seat : ℕ),
      (execute_move source source_seat dest target_seat).length = 1
      ∧ (source_seat = 0 → target_seat = 0 →
          execute_move source source_seat dest target_seat =
            [HttpReq.moveTable source.id dest.id])
      ∧ (¬(source_seat = 0 ∧ target_seat = 0) →
          execute_move source source_seat dest target_seat =
            [HttpReq.moveSeat source.id source_seat dest.id target_seat]))
    ∧ (∀ res : ServerRes, res.status = some "success" →
        on_move_success res =
          ⟨(NoticeLevel.success, "Transfert effectué avec succès ✅"),
            MoveState.idle, [false]⟩) := by
  constructor
  · intro source source_seat dest target_seat
    by_cases h0 : source_seat = 0
    · by_cases h1 : target_seat = 0
      · simp [execute_move, h0, h1]
      · simp [execute_move, h0, h1]
    · simp [execute_move, h0]
  · intro res h
    simp [on_move_success, h]

/-- C5 witness: the spec scenario — group move from table 1 to empty
table 2, `chooseMode(0)`, confirm, success response. -/
theorem C5_transfer_execution_witness :
    execute_move ⟨1, "T1", [0]⟩ 0 ⟨2, "T2", []⟩ 0 = [HttpReq.moveTable 1 2]
    ∧ execute_move ⟨1, "T1", [0]⟩ 2 ⟨2, "T2", []⟩ 1 = [HttpReq.moveSeat 1 2 2 1]
    ∧ on_move_success ⟨some "success", Option.none⟩ =
        ⟨(NoticeLevel.success, "Transfert effectué avec succès ✅"),
          MoveState.idle, [false]⟩ := by
  refine ⟨?_, ?_, ?_⟩
  · exact (C5_transfer_execution_amended.1 ⟨1, "T1", [0]⟩ 0 ⟨2, "T2", []⟩ 0).2.1 rfl rfl
  · exact (C5_transfer_execution_amended.1 ⟨1, "T1", [0]⟩ 2 ⟨2, "T2", []⟩ 1).2.2
      (by decide)
  · exact C5_transfer_execution_amended.2 ⟨some "success", Option.none⟩ rfl

/-- A rejection response (HTTP 200 with `status != success`). -/
def demoRejection : ServerRes :=
  ⟨some "error", some "Stock insuffisant"⟩

/-- C8 counterexample: `on_sent`, the order-submission success handler,
never inspects the response: a `status=error` body with a server message
is reported as a success notice, the server's message is not surfaced and
the cart is cleared — the rejection is treated as a success. -/
theorem C8_order_rejection_counterexample :
    (on_sent demoRejection).1 = NoticeLevel.success
    ∧ (on_sent demoRejection).2.1 ≠ "Stock insuffisant"
    ∧ (on_sent demoRejection).2.2 = [] :=
  ⟨rfl, by decide, rfl⟩

/-- C8 (amended): for the transfer confirmation response, a 200 body with
`status != success` is surfaced as an error with the server's message
verbatim when present, else a generic one; the order submission success
handler, however, ignores `status` entirely and always reports success
and clears the cart. -/
theorem C8_server_rejection_amended :
    (∀ res : ServerRes, res.status ≠ some "success" →
      (on_move_success res).notice.1 = NoticeLevel.error
      ∧ (∀ m, res.message = some m → (on_move_success res).notice.2 = m)
      ∧ (res.message = Option.none →
          (on_move_success res).notice.2 = "Erreur lors du transfert")
      ∧ (on_move_success res).state = MoveState.idle)
    ∧ (∀ res : ServerRes,
        on_sent res =
          (NoticeLevel.success, "Commande transmise en cuisine avec succès.", [])) := by
  constructor
  · intro res h
    have hb : (res.status == some "success") = false := by
      simpa using h
    refine ⟨?_, ?_, ?_, ?_⟩
    · simp [on_move_success, hb]
    · intro m hm
      simp [on_move_success, hb, hm]
    · intro hm
      simp [on_move_success, hb, hm]
    · simp [on_move_success, hb]
  · intro res
    rfl

/-- C8 witness: a concrete rejection with and without a server message. -/
theorem C8_server_rejection_witness :
    (on_move_success demoRejection).notice = (NoticeLevel.error, "Stock insuffisant")
    ∧ (on_move_success ⟨some "error", Option.none⟩).notice.2 = "Erreur lors du transfert"
    ∧ on_sent ⟨some "error", Option.none⟩ =
        (NoticeLevel.success, "Commande transmise en cuisine avec succès.", []) := by
  have h1 := C8_server_rejection_amended.1 demoRejection (by decide)
  have h2 := C8_server_rejection_amended.1 ⟨some "error", Option.none⟩ (by decide)
  refine ⟨?_, h2.2.2.1 rfl, C8_server_rejection_amended.2 ⟨some "error", Option.none⟩⟩
  have hm := h1.2.1 "Stock insuffisant" rfl
  have hl := h1.1
  exact Prod.ext hl hm

/-- A well-formed cart line for the submission scenarios. -/
def demoItem : CartItem :=
  ⟨1, "X", Value.num (PyFloat.finite 3), Value.num (PyFloat.finite 1), ""⟩

/-- An older queued order already stored under `order_100_0`. -/
def demoOldOrder : PendingOrder :=
  ⟨9, 0, [], "old", "t1"⟩

/-- An offline store already holding the key `order_100_0`. -/
def demoStore : List (String × PendingOrder) :=
  [("order_100_0", demoOldOrder)]

/-- `storePut` behaves as a pure append when the key is not yet
present. -/
theorem storePut_fresh (s : List (String × PendingOrder)) (k : String)
    (v : PendingOrder) (h : ∀ e ∈ s, e.1 ≠ k) :
    storePut s k v = s ++ [(k, v)] := by
  unfold storePut
  rw [if_neg]
  simp only [List.any_eq_true, beq_iff_eq, not_exists, not_and]
  exact h

/-- C2 counterexample: the key `order_{int(timestamp)}_{seat}` is not
guaranteed fresh — a failed submission whose whole-second timestamp and
seat coincide with an already-queued order reuses the key: the store
gains no new entry (same length) and the earlier pending order is
overwritten, falsifying "exactly one new entry ... under a fresh unique
key". -/
theorem C2_fresh_key_counterexample :
    (send_order demoStore [demoItem] 1 0 "u" "t2" 100 false).store
      = [("order_100_0", ⟨1, 0, [demoItem], "u", "t2"⟩)]
    ∧ (send_order demoStore [demoItem] 1 0 "u" "t2" 100 false).store.length
      = demoStore.length :=
  ⟨rfl, rfl⟩

/-- C2 (amended): a failed submission of a non-empty cart persists the
order under the key `order_{seconds}_{seat}`; when that key is not
already present in the offline store this adds exactly one new entry
(appended at the end), the user-facing outcome is the warning-level
"saved on device" notice — never an error — and the cart is cleared; on
transport success the store is never touched, the cart is cleared and a
success notice is shown. (Two failed submissions for the same seat within
the same second reuse the key and overwrite the earlier entry.) -/
theorem C2_queue_on_transport_failure_amended :
    ∀ (store : List (String × PendingOrder)) (cart : List CartItem)
      (table_id seat : ℕ) (user ts : String) (nowSec : ℕ),
      cart ≠ [] →
      ((∀ e ∈ store, e.1 ≠ "order_" ++ toString nowSec ++ "_" ++ toString seat) →
        send_order store cart table_id seat user ts nowSec false =
          ⟨store ++ [("order_" ++ toString nowSec ++ "_" ++ toString seat,
              ⟨table_id, seat, cart, user, ts⟩)], [], NoticeLevel.warning⟩)
      ∧ send_order store cart table_id seat user ts nowSec true =
          ⟨store, [], NoticeLevel.success⟩
      ∧ NoticeLevel.warning ≠ NoticeLevel.error := by
  intro store cart table_id seat user ts nowSec hcart
  have hne : cart.isEmpty = false := by
    simpa [List.isEmpty_iff] using hcart
  refine ⟨?_, ?_, by decide⟩
  · intro hfresh
    simp [send_order, hne, storePut_fresh _ _ _ hfresh]
  · simp [send_order, hne]

/-- C2 witness: a failed and a successful submission at concrete
inputs. -/
theorem C2_queue_on_transport_failure_witness :
    send_order [] [demoItem] 1 2 "u" "t9" 321 false =
      ⟨[("order_321_2", ⟨1, 2, [demoItem], "u", "t9"⟩)], [], NoticeLevel.warning⟩
    ∧ send_order [] [demoItem] 1 2 "u" "t9" 321 true =
      ⟨[], [], NoticeLevel.success⟩ := by
  have h := C2_queue_on_transport_failure_amended [] [demoItem] 1 2 "u" "t9" 321
    (by decide)
  exact ⟨h.1 (by simp), h.2.1⟩

/-- Adding `0.0` on the left is the identity, also on nan/±inf. -/
theorem pyFloat_zero_add (x : PyFloat) : (PyFloat.finite 0).add x = x := by
  cases x <;> simp [PyFloat.add]

/-- Evaluation of the running product-sum on a cart whose stored prices
and quantities are all finite numbers. -/
theorem pySumProducts_finite (cart : List CartItem) :
    ∀ acc : ℚ,
      (∀ i ∈ cart, (∃ p, i.price = Value.num (PyFloat.finite p))
          ∧ (∃ q, i.qty = Value.num (PyFloat.finite q))) →
      pySumProducts (PyFloat.finite acc) cart =
        .ok (PyFloat.finite (acc + (cart.map (fun i => i.price.q0 * i.qty.q0)).sum)) := by
  induction cart with
  | nil => intro acc _; simp [pySumProducts]
  | cons i rest ih =>
    intro acc h
    obtain ⟨⟨p, hp⟩, ⟨q, hq⟩⟩ := h i (by simp)
    have hrest := fun j hj => h j (List.mem_cons_of_mem _ hj)
    rw [show pySumProducts (PyFloat.finite acc) (i :: rest) =
        pySumProducts (PyFloat.finite (acc + p * q)) rest by
      simp [pySumProducts, hp, hq, pyFloat?, PyFloat.mul, PyFloat.add]]
    rw [ih (acc + p * q) hrest]
    have hterm : i.price.q0 * i.qty.q0 = p * q := by
      rw [hp, hq]; rfl
    simp [hterm]
    ring

/-- Evaluation of the running quantity-sum on a cart whose stored
quantities are all finite numbers. -/
theorem pySumQtys_finite (cart : List CartItem) :
    ∀ acc : ℚ,
      (∀ i ∈ cart, ∃ q, i.qty = Value.num (PyFloat.finite q)) →
      pySumQtys (PyFloat.finite acc) cart =
        .ok (PyFloat.finite (acc + (cart.map (fun i => i.qty.q0)).sum)) := by
  induction cart with
  | nil => intro acc _; simp [pySumQtys]
  | cons i rest ih =>
    intro acc h
    obtain ⟨q, hq⟩ := h i (by simp)
    have hrest := fun j hj => h j (List.mem_cons_of_mem _ hj)
    rw [show pySumQtys (PyFloat.finite acc) (i :: rest) =
        pySumQtys (PyFloat.finite (acc + q)) rest by
      simp [pySumQtys, hq, pyFloat?, PyFloat.add]]
    rw [ih (acc + q) hrest]
    have hterm : i.qty.q0 = q := by rw [hq]; rfl
    simp [hterm]
    ring

/-- A cart whose only line stores a non-numeric price string. -/
def badCart : List CartItem :=
  [⟨1, "X", Value.str "abc", Value.num (PyFloat.finite 1), ""⟩]

/-- A cart whose only line has a negative stored price. -/
def negCart : List CartItem :=
  [⟨1, "X", Value.num (PyFloat.finite (-5)), Value.num (PyFloat.finite 1), ""⟩]

/-- C3 counterexample: the totals code applies bare `float()` with no
try/except, so a cart line with a non-numeric stored price makes both
totals computations raise instead of treating the value as 0; and a
negative stored price (accepted unclamped by `confirm_add`'s coercion)
makes `amountDue` negative. -/
theorem C3_totals_counterexample :
    update_cart_totals_live badCart = .error ()
    ∧ update_cart_btn badCart = .error ()
    ∧ update_cart_totals_live negCart = .ok (PyFloat.finite (0 + (-5) * 1))
    ∧ ((0 + (-5) * 1 : ℚ) < 0) :=
  ⟨rfl, rfl, rfl, by norm_num⟩

/-- C3 (amended): on every cart whose stored prices and quantities are
all (finite) numbers, the computed totals satisfy
`amountDue = Σ price_i * qty_i` and `itemCount = Σ qty_i`, and both are
non-negative whenever all stored prices and quantities are non-negative;
a non-numeric stored price or quantity makes the computation raise an
uncaught error (there is no defensive coercion in the totals functions —
only `confirm_add` coerces, at insertion time), and negative stored
values make the totals negative. -/
theorem C3_totals_amended :
    ∀ cart : List CartItem,
      (∀ i ∈ cart, (∃ p, i.price = Value.num (PyFloat.finite p))
          ∧ (∃ q, i.qty = Value.num (PyFloat.finite q))) →
      update_cart_totals_live cart =
        .ok (PyFloat.finite ((cart.map (fun i => i.price.q0 * i.qty.q0)).sum))
      ∧ update_cart_btn cart =
        .ok (PyFloat.finite ((cart.map (fun i => i.price.q0 * i.qty.q0)).sum),
             PyFloat.finite ((cart.map (fun i => i.qty.q0)).sum))
      ∧ ((∀ i ∈ cart, 0 ≤ i.price.q0 ∧ 0 ≤ i.qty.q0) →
          0 ≤ (cart.map (fun i => i.price.q0 * i.qty.q0)).sum
          ∧ 0 ≤ (cart.map (fun i => i.qty.q0)).sum) := by
  intro cart h
  have h1 : update_cart_totals_live cart =
      .ok (PyFloat.finite ((cart.map (fun i => i.price.q0 * i.qty.q0)).sum)) := by
    have := pySumProducts_finite cart 0 h
    simpa [update_cart_totals_live] using this
  have h2 : pySumQtys (PyFloat.finite 0) cart =
      .ok (PyFloat.finite ((cart.map (fun i => i.qty.q0)).sum)) := by
    have := pySumQtys_finite cart 0 (fun i hi => (h i hi).2)
    simpa using this
  refine ⟨h1, ?_, ?_⟩
  · simp [update_cart_btn, h1, h2]
  · intro hpos
    constructor
    · exact List.sum_nonneg (by
        intro x hx
        obtain ⟨i, hi, hix⟩ := List.mem_map.mp hx
        have := hpos i hi
        exact hix ▸ mul_nonneg this.1 this.2)
    · exact List.sum_nonneg (by
        intro x hx
        obtain ⟨i, hi, hix⟩ := List.mem_map.mp hx
        exact hix ▸ (hpos i hi).2)

/-- C3 witness: a concrete all-numeric cart. -/
theorem C3_totals_amended_witness :
    update_cart_totals_live
        [⟨1, "A", Value.num (PyFloat.finite 3), Value.num (PyFloat.finite 2), ""⟩] =
      .ok (PyFloat.finite
        (([⟨1, "A", Value.num (PyFloat.finite 3), Value.num (PyFloat.finite 2), ""⟩] :
            List CartItem).map (fun i => i.price.q0 * i.qty.q0)).sum) := by
  exact (C3_totals_amended
    [⟨1, "A", Value.num (PyFloat.finite 3), Value.num (PyFloat.finite 2), ""⟩]
    (by intro i hi; simp at hi; subst hi; exact ⟨⟨3, rfl⟩, ⟨2, rfl⟩⟩)).1

/-- When no cart line matches the `(id, note)` identity, the merge scan
finds nothing. -/
theorem mergeFirst_eq_none (cart : List CartItem) (pid : ℕ) (note : String)
    (qty : PyFloat) (h : ∀ i ∈ cart, ¬(i.id = pid ∧ i.note = note)) :
    mergeFirst cart pid note qty = Option.none := by
  induction cart with
  | nil => rfl
  | cons i rest ih =>
    have hi := h i (by simp)
    have hcond : (i.id == pid && i.note == note) = false := by
      by_cases h1 : i.id = pid
      · have h2 : i.note ≠ note := fun h2 => hi ⟨h1, h2⟩
        simp [h1, h2]
      · simp [h1]
    simp [mergeFirst, hcond, ih (fun j hj => h j (List.mem_cons_of_mem _ hj))]

/-- Replaying validated adds with a fixed `(id, note)` identity onto a
cart holding exactly one line of that identity accumulates the whole
quantity into that line. -/
theorem runAdds_single_line (p : Product) (note : String) :
    ∀ (inputs : List (String × String)) (qs : List PyFloat) (line : CartItem)
      (acc : PyFloat),
      inputs.map (fun x => validate_quantity x.1) = qs.map Except.ok →
      (∀ x ∈ inputs, sanitize_note x.2 = note) →
      line.id = p.id → line.note = note → line.qty = Value.num acc →
      runAdds p [line] inputs =
        .ok [⟨line.id, line.name, line.price,
          Value.num (qs.foldl PyFloat.add acc), line.note⟩] := by
  intro inputs
  induction inputs with
  | nil =>
    intro qs line acc hmap _ _ _ hqty
    have hqs : qs = [] := by
      cases qs with
      | nil => rfl
      | cons a l => simp at hmap
    subst hqs
    simp [runAdds]
    cases line
    simp_all
  | cons x rest ih =>
    intro qs line acc hmap hnote hid hln hqty
    cases qs with
    | nil => simp at hmap
    | cons q qs2 =>
      simp only [List.map_cons, List.cons.injEq] at hmap
      have hv : validate_quantity x.1 = .ok q := hmap.1
      have hcond : (line.id == p.id && line.note == sanitize_note x.2) = true := by
        simp [hid, hln, hnote x (by simp)]
      have hstep : confirm_add [line] p x.1 x.2 =
          .ok [⟨line.id, line.name, line.price, Value.num (acc.add q), line.note⟩] := by
        simp [confirm_add, hv, mergeFirst, hcond, pyAddNum, hqty]
      obtain ⟨qt, nt⟩ := x
      rw [show runAdds p [line] ((qt, nt) :: rest) =
          runAdds p [⟨line.id, line.name, line.price,
            Value.num (acc.add q), line.note⟩] rest by
        simp [runAdds, hstep]]
      rw [ih qs2 ⟨line.id, line.name, line.price, Value.num (acc.add q), line.note⟩
        (acc.add q) hmap.2 (fun y hy => hnote y (List.mem_cons_of_mem _ hy))
        hid hln rfl]
      rfl

/-- C4: repeated `addItem` with identical `(product id, sanitized note)`
yields, from an empty cart, exactly one line of that identity whose
quantity is the running sum of the validated quantities; a fresh
sanitized note for the same product appends a distinct line whose price
is defensively coerced from the product, with missing or invalid prices
becoming 0. -/
theorem C4_merge_by_identity :
    (∀ (p : Product) (note : String) (inputs : List (String × String))
        (qs : List PyFloat),
      inputs.map (fun x => validate_quantity x.1) = qs.map Except.ok →
      (∀ x ∈ inputs, sanitize_note x.2 = note) →
      inputs ≠ [] →
      runAdds p [] inputs =
        .ok [⟨p.id, p.name, Value.num (coerce_price p.price),
          Value.num (pyFloatSum qs), note⟩])
    ∧ (∀ (cart : List CartItem) (p : Product) (qt nt : String) (q : PyFloat),
        validate_quantity qt = .ok q →
        (∀ i ∈ cart, ¬(i.id = p.id ∧ i.note = sanitize_note nt)) →
        confirm_add cart p qt nt =
          .ok (cart ++ [⟨p.id, p.name, Value.num (coerce_price p.price),
            Value.num q, sanitize_note nt⟩]))
    ∧ coerce_price Value.null = PyFloat.finite 0
    ∧ coerce_price (Value.str "zz") = PyFloat.finite 0 := by
  refine ⟨?_, ?_, rfl, rfl⟩
  · intro p note inputs qs hmap hnote hne
    cases inputs with
    | nil => exact absurd rfl hne
    | cons x rest =>
      cases qs with
      | nil => simp at hmap
      | cons q qs2 =>
        simp only [List.map_cons, List.cons.injEq] at hmap
        have hfirst : confirm_add [] p x.1 x.2 =
            .ok [⟨p.id, p.name, Value.num (coerce_price p.price),
              Value.num q, note⟩] := by
          simp [confirm_add, hmap.1, mergeFirst, hnote x (by simp)]
        obtain ⟨qt, nt⟩ := x
        rw [show runAdds p [] ((qt, nt) :: rest) =
            runAdds p [⟨p.id, p.name, Value.num (coerce_price p.price),
              Value.num q, note⟩] rest by
          simp [runAdds, hfirst]]
        rw [runAdds_single_line p note rest qs2
          ⟨p.id, p.name, Value.num (coerce_price p.price), Value.num q, note⟩ q
          hmap.2 (fun y hy => hnote y (List.mem_cons_of_mem _ hy)) rfl rfl rfl]
        have hsum : pyFloatSum (q :: qs2) = qs2.foldl PyFloat.add q := by
          simp [pyFloatSum, pyFloat_zero_add]
        rw [hsum]
  · intro cart p qt nt q hv hnone
    simp [confirm_add, hv, mergeFirst_eq_none cart p.id (sanitize_note nt) q hnone]

/-- C4 witness: two adds of product 7 with the same empty note merge into
one line summing the quantities; an add with a different note appends a
distinct second line. -/
theorem C4_merge_by_identity_witness :
    runAdds ⟨7, "Pizza", Value.num (PyFloat.finite 100)⟩ [] [("2", ""), ("3", "")] =
      .ok [⟨7, "Pizza", Value.num (coerce_price (Value.num (PyFloat.finite 100))),
        Value.num (pyFloatSum [PyFloat.finite 2, PyFloat.finite 3]), ""⟩]
    ∧ confirm_add
        [⟨7, "Pizza", Value.num (PyFloat.finite 100), Value.num (PyFloat.finite 2), "x"⟩]
        ⟨7, "Pizza", Value.num (PyFloat.finite 100)⟩ "2" "y" =
      .ok ([⟨7, "Pizza", Value.num (PyFloat.finite 100), Value.num (PyFloat.finite 2), "x"⟩]
        ++ [⟨7, "Pizza", Value.num (coerce_price (Value.num (PyFloat.finite 100))),
          Value.num (PyFloat.finite 2), sanitize_note "y"⟩]) := by
  constructor
  · exact C4_merge_by_identity.1 ⟨7, "Pizza", Value.num (PyFloat.finite 100)⟩ ""
      [("2", ""), ("3", "")] [PyFloat.finite 2, PyFloat.finite 3] rfl
      (by decide) (by decide)
  · exact C4_merge_by_identity.2.1
      [⟨7, "Pizza", Value.num (PyFloat.finite 100), Value.num (PyFloat.finite 2), "x"⟩]
      ⟨7, "Pizza", Value.num (PyFloat.finite 100)⟩ "2" "y" (PyFloat.finite 2) rfl
      (by decide)

end MagPro
